import Mathlib

/-!
Shallow embedding of the gas-copy job-processing pipeline:
`src/ann/annotator.py` (polling dispatcher), `src/ann/annotator_webhook.py`
(webhook dispatcher variant) and `src/ann/run.py` (completion reporter).

Conventions of the embedding:
* DynamoDB tables are association lists; `update_item` without a
  `ConditionExpression` is an upsert, with one it applies only when the
  current `job_status` attribute equals the expected value (otherwise
  `ConditionalCheckFailedException`, which the Python code catches).
* The filesystem's directory set is a `List String`; `os.makedirs` with
  `exist_ok=True` inserts the directory and its (modelled) parents.
* S3 transfers are oracles `String → String → Bool` saying whether a
  given `(bucket, key)` download/upload succeeds; a `false` stands for the
  botocore exception raised on a transport or not-found condition.
* Each dispatcher step returns, besides the new store, the ordered trace
  of externally visible per-job operations it performed (`Event`).
-/

namespace GasCopy

/-- Python truthiness test `not s` on an optional string field:
`None` and the empty string are falsy. -/
def falsyStr (s : Option String) : Bool :=
  match s with
  | none => true
  | some v => v = ""

/-- Python's `s.split("/")` on a character list: cut at every `/`,
keeping empty segments, never returning an empty list. -/
def splitSlashAux : List Char → List Char → List String
  | [], acc => [String.mk acc]
  | c :: cs, acc =>
    if c = '/' then String.mk acc :: splitSlashAux cs []
    else splitSlashAux cs (acc ++ [c])

/-- Python's `s.split("/")`. -/
def splitSlash (s : String) : List String :=
  splitSlashAux s.data []

/-- Model of `key.split("/")[-1]` / `os.path.basename` for slash-separated paths:
the last `/`-separated segment. -/
def lastSegment (key : String) : String :=
  (splitSlash key).getLastD ""

/-- Model of `os.path.join` restricted to relative second components. -/
def joinPath (a b : String) : String := a ++ "/" ++ b

/-- Insert a directory if absent (one level of `os.makedirs`). -/
def ensureDir (fs : List String) (d : String) : List String :=
  if d ∈ fs then fs else fs ++ [d]

/-- Model of `os.makedirs(..., exist_ok=True)`: create each listed level if absent. -/
def makedirs (fs : List String) (ds : List String) : List String :=
  ds.foldl ensureDir fs

/-- The annotator's DynamoDB table: items keyed by the composite
`(user_id, job_id)`; only the `job_status` attribute is modelled, the one
attribute the dispatcher ever writes. -/
abbrev DDB := List ((String × String) × String)

/-- Read the `job_status` attribute of item `(u, j)`. -/
def ddbGet (t : DDB) (u j : String) : Option String :=
  (t.find? (fun e => e.1 = (u, j))).map (·.2)

/-- Unconditional `update_item`: upsert of the `job_status` attribute. -/
def ddbSet (t : DDB) (u j s : String) : DDB :=
  match t with
  | [] => [((u, j), s)]
  | e :: rest => if e.1 = (u, j) then ((u, j), s) :: rest else e :: ddbSet rest u j s

/-- Embedding of `annotator.py:update_job_status`.  Returns early when `user_id` is
falsy; with an `expected_status` the write is conditional on the current
`job_status` (a `ConditionalCheckFailedException` is caught, leaving the
table unchanged); without one the write is an unconditional upsert. -/
def update_job_status (t : DDB) (job_id new_status : String)
    (expected_status : Option String) (user_id : Option String) : DDB :=
  if falsyStr user_id then t
  else
    let u := user_id.getD ""
    if ¬ falsyStr expected_status then
      if ddbGet t u job_id = expected_status then ddbSet t u job_id new_status else t
    else
      ddbSet t u job_id new_status

/-- Embedding of `annotator.py:download_from_s3`: build the per-user per-job directory
`LOCAL_JOB_DIR/user_id/job_id` (creating it and its parents if absent),
take the last path segment of `key` as the local filename, then fetch;
on a download failure the exception is caught and `None` is returned. -/
def download_from_s3 (localJobDir : String) (s3ok : String → String → Bool)
    (fs : List String) (bucket key user_id job_id : String) :
    List String × Option String :=
  let job_dir := joinPath (joinPath localJobDir user_id) job_id
  let fs1 := makedirs fs [localJobDir, joinPath localJobDir user_id, job_dir]
  let filename := lastSegment key
  let local_path := joinPath job_dir filename
  if s3ok bucket key then (fs1, some local_path) else (fs1, none)

/-- One externally visible per-job operation of a dispatcher, in the
order the code performs them. -/
inductive Event where
  /-- the conditional PENDING→RUNNING `update_item` call -/
  | claim (user_id job_id : String)
  /-- the webhook's unconditional RUNNING `update_item` call -/
  | updateRunning (user_id job_id : String)
  /-- an unconditional FAILED `update_item` call -/
  | setFailed (user_id job_id : String)
  /-- an `s3.download_file` call for `(bucket, key)` into the job workspace -/
  | download (bucket key user_id job_id : String)
  /-- the `subprocess.Popen(["python3", "run.py", path, job_id, user_id])` call -/
  | launch (path job_id user_id : String)
  /-- the `sqs.delete_message` call on the notification's receipt handle -/
  | ack
deriving DecidableEq, Repr

/-- The configuration the dispatchers read at startup
(`annotator_config.ini` / `annotator_webhook_config.Config`). -/
structure Config where
  s3_input_bucket : String
  local_job_dir : String
deriving DecidableEq, Repr

/-- A job notification after JSON decoding and SNS unwrapping: the four
fields the dispatchers read, each possibly absent. -/
structure Msg where
  job_id : Option String
  user_id : Option String
  s3_inputs_bucket : Option String
  s3_key_input_file : Option String
deriving DecidableEq, Repr

/-- Outcome of one dispatcher step: the job table, the directory set and
the ordered trace of operations performed for this notification. -/
structure DispatchResult where
  store : DDB
  fs : List String
  events : List Event
deriving DecidableEq, Repr

/-- The body of `annotator.py`'s polling loop for one received message
(lines 141–170): extract fields with `.get` (the input bucket defaulting
to the configured one), skip silently if `job_id`, `key` or `user_id` is
falsy, conditionally claim PENDING→RUNNING, stage the input, on staging
failure write FAILED unconditionally and `continue`, otherwise launch
`run.py` and, if `Popen` succeeded, delete the SQS message; if `Popen`
raised, write FAILED unconditionally. -/
def processMessage (cfg : Config) (s3ok : String → String → Bool)
    (launchOk : Bool) (fs : List String) (t : DDB) (m : Msg) : DispatchResult :=
  let bucket := m.s3_inputs_bucket.getD cfg.s3_input_bucket
  if falsyStr m.job_id || falsyStr m.s3_key_input_file || falsyStr m.user_id then
    ⟨t, fs, []⟩
  else
    let j := m.job_id.getD ""
    let u := m.user_id.getD ""
    let k := m.s3_key_input_file.getD ""
    let t1 := update_job_status t j "RUNNING" (some "PENDING") (some u)
    let dl := download_from_s3 cfg.local_job_dir s3ok fs bucket k u j
    match dl.2 with
    | none =>
      ⟨update_job_status t1 j "FAILED" none (some u), dl.1,
       [.claim u j, .download bucket k u j, .setFailed u j]⟩
    | some local_path =>
      if launchOk then
        ⟨t1, dl.1,
         [.claim u j, .download bucket k u j, .launch local_path j u, .ack]⟩
      else
        ⟨update_job_status t1 j "FAILED" none (some u), dl.1,
         [.claim u j, .download bucket k u j, .launch local_path j u, .setFailed u j]⟩

/-- Outcome of one `POST /process-job-request` handling in the webhook
variant: table, directories, operation trace and HTTP status code. -/
structure WebhookResult where
  store : DDB
  fs : List String
  events : List Event
  httpStatus : Nat
deriving DecidableEq, Repr

/-- Embedding of `annotator_webhook.py:annotate` for one dequeued message (lines
112–149): read `job_id`, `user_id` and the input key by direct indexing
(a missing field raises `KeyError`, caught by the handler's `except`,
which returns 500 before any AWS call), create the per-user per-job
directory, download from the configured input bucket (a failure raises,
again answered with 500), then write RUNNING unconditionally, launch
`run.py` and delete the SQS message, answering 202. -/
def webhookAnnotate (cfg : Config) (s3ok : String → String → Bool)
    (fs : List String) (t : DDB) (m : Msg) : WebhookResult :=
  match m.job_id, m.user_id, m.s3_key_input_file with
  | some j, some u, some k =>
    let dir := joinPath (joinPath cfg.local_job_dir u) j
    let fs1 := makedirs fs [cfg.local_job_dir, joinPath cfg.local_job_dir u, dir]
    let local_path := joinPath dir (lastSegment k)
    if s3ok cfg.s3_input_bucket k then
      ⟨ddbSet t u j "RUNNING", fs1,
       [.download cfg.s3_input_bucket k u j, .updateRunning u j,
        .launch local_path j u, .ack], 202⟩
    else
      ⟨t, fs1, [.download cfg.s3_input_bucket k u j], 500⟩
  | _, _, _ => ⟨t, fs, [], 500⟩

/-! ### The completion reporter, `run.py` -/

/-- Hardcoded configuration constant of `run.py`. -/
def CNETID : String := "donma"

/-- Hardcoded results bucket of `run.py`. -/
def RUN_S3_RESULTS_BUCKET : String := "gas-results"

/-- One item of `run.py`'s annotations table, keyed by `job_id` alone:
the five attributes its `update_item` writes (other attributes of the
record are untouched by the reporter and not modelled). -/
structure RunItem where
  job_status : String
  s3_results_bucket : Option String := none
  s3_key_result_file : Option String := none
  s3_key_log_file : Option String := none
  complete_time : Option Nat := none
deriving DecidableEq, Repr

/-- The DynamoDB table of `run.py`: items keyed by `job_id` alone
(`Key={"job_id": job_id}`). -/
abbrev RunDDB := List (String × RunItem)

/-- Upsert into `run.py`'s table. -/
def runSet (t : RunDDB) (j : String) (v : RunItem) : RunDDB :=
  match t with
  | [] => [(j, v)]
  | e :: rest => if e.1 = j then (j, v) :: rest else e :: runSet rest j v

/-- Embedding of `run.py:update_job_status`: one unconditional `update_item` keyed by
`job_id` alone, setting results bucket, result key, log key, completion
time and `job_status = "COMPLETED"` atomically. -/
def run_update_job_status (t : RunDDB) (now : Nat)
    (job_id result_key log_key : String) : RunDDB :=
  runSet t job_id
    { job_status := "COMPLETED"
      s3_results_bucket := some RUN_S3_RESULTS_BUCKET
      s3_key_result_file := some result_key
      s3_key_log_file := some log_key
      complete_time := some now }

/-- The environment `run.py`'s main block interacts with: whether
`driver.run` returns normally, the sorted `glob` results for a pattern,
whether an S3 upload of `(bucket, key)` succeeds, and the clock. -/
structure RunEnv where
  driverOk : Bool
  tempFiles : String → List String
  uploadOk : String → String → Bool
  now : Nat

/-- Observable outcome of one `run.py` invocation: process exit code,
the attempted S3 uploads `(local_path, bucket, key)` in order, the job
table after the run, and the local paths passed to `os.remove`. -/
structure RunOutcome where
  exitCode : Nat
  uploads : List (String × String × String)
  store : RunDDB
  deleted : List String
deriving DecidableEq, Repr

/-- Embedding of the `__main__` block of `run.py`: require at least two command-line
arguments (input path, job id; anything further is never read), run the
driver, locate `sorted(glob(input + ".*"))` failing the process if empty,
copy the last match to `input + ".annotated"`, write `input + ".log"`,
build keys `CNETID/job_id/basename`, upload both artifacts (a failure
raises out of the try, exiting 1), finalize the table record keyed by
`job_id` alone, and best-effort delete the local files. -/
def runMain (argv : List String) (env : RunEnv) (t : RunDDB) : RunOutcome :=
  if argv.length < 3 then ⟨1, [], t, []⟩
  else
    let input_file_name := argv.getD 1 ""
    let job_id := argv.getD 2 ""
    if ¬ env.driverOk then ⟨1, [], t, []⟩
    else
      let temp_files := env.tempFiles (input_file_name ++ ".*")
      if temp_files = [] then ⟨1, [], t, []⟩
      else
        let annotated_path := input_file_name ++ ".annotated"
        let log_path := input_file_name ++ ".log"
        let s3_prefix := CNETID ++ "/" ++ job_id ++ "/"
        let result_key := s3_prefix ++ lastSegment annotated_path
        let log_key := s3_prefix ++ lastSegment log_path
        if ¬ env.uploadOk RUN_S3_RESULTS_BUCKET result_key then
          ⟨1, [(annotated_path, RUN_S3_RESULTS_BUCKET, result_key)], t, []⟩
        else if ¬ env.uploadOk RUN_S3_RESULTS_BUCKET log_key then
          ⟨1, [(annotated_path, RUN_S3_RESULTS_BUCKET, result_key),
               (log_path, RUN_S3_RESULTS_BUCKET, log_key)], t, []⟩
        else
          ⟨0, [(annotated_path, RUN_S3_RESULTS_BUCKET, result_key),
               (log_path, RUN_S3_RESULTS_BUCKET, log_key)],
           run_update_job_status t env.now job_id result_key log_key,
           [input_file_name, annotated_path, log_path] ++ temp_files⟩

/-- Read the `job_status` attribute of the item keyed `j` in `run.py`'s
table. -/
def runGet (t : RunDDB) (j : String) : Option String :=
  (t.find? (fun e => e.1 = j)).map (fun e => e.2.job_status)

/-- Position of an operation in the order §5 of the spec prescribes
within one job: claim, then staging, then launch, then acknowledgment
(an unconditional FAILED write only ends a trace). -/
def stageRank : Event → Nat
  | .claim _ _ => 0
  | .updateRunning _ _ => 0
  | .download _ _ _ _ => 1
  | .launch _ _ _ => 2
  | .ack => 3
  | .setFailed _ _ => 4

/-! ### Helper lemmas -/

theorem mem_ensureDir_self (fs : List String) (d : String) : d ∈ ensureDir fs d := by
  unfold ensureDir
  split
  · assumption
  · simp

theorem mem_ensureDir_of_mem (fs : List String) (d e : String) (h : e ∈ fs) :
    e ∈ ensureDir fs d := by
  unfold ensureDir
  split
  · exact h
  · simp [h]

theorem mem_makedirs_of_mem (fs : List String) (ds : List String) (e : String)
    (h : e ∈ fs) : e ∈ makedirs fs ds := by
  induction ds generalizing fs with
  | nil => exact h
  | cons d rest ih => exact ih (ensureDir fs d) (mem_ensureDir_of_mem fs d e h)

theorem mem_makedirs_of_target (fs : List String) (ds : List String) (d : String)
    (h : d ∈ ds) : d ∈ makedirs fs ds := by
  induction ds generalizing fs with
  | nil => cases h
  | cons x rest ih =>
    rcases List.mem_cons.mp h with h | h
    · subst h
      exact mem_makedirs_of_mem (ensureDir fs d) rest d (mem_ensureDir_self fs d)
    · exact ih (ensureDir fs x) h

theorem ddbGet_ddbSet (t : DDB) (u j s : String) :
    ddbGet (ddbSet t u j s) u j = some s := by
  induction t with
  | nil => simp [ddbSet, ddbGet, List.find?]
  | cons e rest ih =>
    by_cases h : e.1 = (u, j)
    · simp [ddbSet, h, ddbGet, List.find?]
    · simpa [ddbSet, h, ddbGet, List.find?] using ih

theorem runGet_runSet (t : RunDDB) (j : String) (v : RunItem) :
    runGet (runSet t j v) j = some v.job_status := by
  induction t with
  | nil => simp [runSet, runGet, List.find?]
  | cons e rest ih =>
    by_cases h : e.1 = j
    · simp [runSet, h, runGet, List.find?]
    · simpa [runSet, h, runGet, List.find?] using ih

/-! ### Claim theorems -/

/-- C8: the Object Stager's `download_from_s3` ensures the per-job
directory `LOCAL_JOB_DIR/user_id/job_id` and its parents exist, derives
the local filename as the last `/`-separated segment of `key`, and
returns the local path on success and `none` (staging failure) when the
fetch fails. -/
theorem object_stager_download_spec (localJobDir : String)
    (s3ok : String → String → Bool) (fs : List String)
    (bucket key user_id job_id : String) :
    localJobDir ∈
      (download_from_s3 localJobDir s3ok fs bucket key user_id job_id).1 ∧
    joinPath localJobDir user_id ∈
      (download_from_s3 localJobDir s3ok fs bucket key user_id job_id).1 ∧
    joinPath (joinPath localJobDir user_id) job_id ∈
      (download_from_s3 localJobDir s3ok fs bucket key user_id job_id).1 ∧
    (if s3ok bucket key then
      (download_from_s3 localJobDir s3ok fs bucket key user_id job_id).2 =
        some (joinPath (joinPath (joinPath localJobDir user_id) job_id)
          (lastSegment key))
    else
      (download_from_s3 localJobDir s3ok fs bucket key user_id job_id).2 =
        none) := by
  unfold download_from_s3
  refine ⟨?_, ?_, ?_, ?_⟩
  · split <;> exact mem_makedirs_of_target _ _ _ (by simp)
  · split <;> exact mem_makedirs_of_target _ _ _ (by simp)
  · split <;> exact mem_makedirs_of_target _ _ _ (by simp)
  · split
    · simp_all
    · simp_all

/-- C6: a notification missing `job_id`, `user_id` or the input key is
never acknowledged and never mutates any Job Store record: the polling
dispatcher skips it leaving store, filesystem and trace untouched, and
the webhook's field access raises before any AWS call, so it answers 500
with store and trace untouched. -/
theorem malformed_message_untouched (cfg : Config)
    (s3ok : String → String → Bool) (launchOk : Bool) (fs : List String)
    (t : DDB) (m : Msg)
    (h : m.job_id = none ∨ m.user_id = none ∨ m.s3_key_input_file = none) :
    processMessage cfg s3ok launchOk fs t m = ⟨t, fs, []⟩ ∧
    (webhookAnnotate cfg s3ok fs t m).store = t ∧
    (webhookAnnotate cfg s3ok fs t m).events = [] := by
  obtain ⟨j, u, b, k⟩ := m
  rcases j with _ | j <;> rcases u with _ | u <;> rcases k with _ | k <;>
    simp_all [processMessage, webhookAnnotate, falsyStr]

/-- Witness for C6 at a concrete malformed message (no `job_id`). -/
theorem malformed_message_untouched_wit :
    processMessage ⟨"gas-inputs", "/jobs"⟩ (fun _ _ => true) true ["/jobs"]
        [(("u1", "j1"), "PENDING")] ⟨none, some "u1", none, some "in/f.vcf"⟩ =
      ⟨[(("u1", "j1"), "PENDING")], ["/jobs"], []⟩ ∧
    (webhookAnnotate ⟨"gas-inputs", "/jobs"⟩ (fun _ _ => true) ["/jobs"]
        [(("u1", "j1"), "PENDING")] ⟨none, some "u1", none, some "in/f.vcf"⟩).store =
      [(("u1", "j1"), "PENDING")] ∧
    (webhookAnnotate ⟨"gas-inputs", "/jobs"⟩ (fun _ _ => true) ["/jobs"]
        [(("u1", "j1"), "PENDING")] ⟨none, some "u1", none, some "in/f.vcf"⟩).events = [] :=
  malformed_message_untouched _ _ _ _ _ _ (Or.inl rfl)

/-- C9: the Completion Reporter's observable behavior is independent of
the user identifier: `run.py` reads only `argv[1]` (input path) and
`argv[2]` (job id), and its finalize addresses the record by `job_id`
alone, so two invocations agreeing on those two arguments — in
particular, two differing only in a `user_id` third argument — produce
identical exit codes, uploads, store updates and deletions. -/
theorem runner_user_independent (env : RunEnv) (t : RunDDB)
    (a b : List String) (ha : 3 ≤ a.length) (hb : 3 ≤ b.length)
    (h1 : a.getD 1 "" = b.getD 1 "") (h2 : a.getD 2 "" = b.getD 2 "") :
    runMain a env t = runMain b env t := by
  unfold runMain
  have ha' : ¬ a.length < 3 := by omega
  have hb' : ¬ b.length < 3 := by omega
  rw [if_neg ha', if_neg hb', h1, h2]

/-- Witness for C9: two concrete invocations differing only in the
`user_id` argument coincide. -/
theorem runner_user_independent_wit :
    runMain ["run.py", "in.vcf", "j1", "alice"]
        ⟨true, fun _ => ["in.vcf.count"], fun _ _ => true, 42⟩ [] =
      runMain ["run.py", "in.vcf", "j1", "bob"]
        ⟨true, fun _ => ["in.vcf.count"], fun _ _ => true, 42⟩ [] :=
  runner_user_independent _ _ _ _ (by decide) (by decide) rfl rfl

/-- C10: a notification carrying `job_id`, `user_id` and the input key
but no `s3_inputs_bucket` field is not treated as malformed: the polling
dispatcher substitutes the configured default input bucket and processes
the job exactly as if that bucket had been supplied, staging from the
default bucket. -/
theorem missing_bucket_default (cfg : Config) (s3ok : String → String → Bool)
    (launchOk : Bool) (fs : List String) (t : DDB) (j u k : String)
    (hj : j ≠ "") (hu : u ≠ "") (hk : k ≠ "") :
    processMessage cfg s3ok launchOk fs t ⟨some j, some u, none, some k⟩ =
      processMessage cfg s3ok launchOk fs t
        ⟨some j, some u, some cfg.s3_input_bucket, some k⟩ ∧
    Event.download cfg.s3_input_bucket k u j ∈
      (processMessage cfg s3ok launchOk fs t ⟨some j, some u, none, some k⟩).events := by
  constructor
  · rfl
  · unfold processMessage
    simp only [falsyStr, Option.getD_some, Option.getD_none]
    rw [if_neg (by simp [hj, hu, hk])]
    split
    · simp
    · split <;> simp

/-- Witness for C10 at a concrete bucketless message. -/
theorem missing_bucket_default_wit :
    processMessage ⟨"gas-inputs", "/jobs"⟩ (fun _ _ => true) true []
        [(("u1", "j1"), "PENDING")] ⟨some "j1", some "u1", none, some "in/f.vcf"⟩ =
      processMessage ⟨"gas-inputs", "/jobs"⟩ (fun _ _ => true) true []
        [(("u1", "j1"), "PENDING")]
        ⟨some "j1", some "u1", some "gas-inputs", some "in/f.vcf"⟩ ∧
    Event.download "gas-inputs" "in/f.vcf" "u1" "j1" ∈
      (processMessage ⟨"gas-inputs", "/jobs"⟩ (fun _ _ => true) true []
        [(("u1", "j1"), "PENDING")]
        ⟨some "j1", some "u1", none, some "in/f.vcf"⟩).events :=
  missing_bucket_default _ _ _ _ _ _ _ _ (by decide) (by decide) (by decide)

/-- C1 counterexample: status writes are not all conditional. On a record
already COMPLETED, a redelivered notification whose staging fails makes
the dispatcher's unconditional FAILED write turn COMPLETED into FAILED;
and the reporter's finalize turns a FAILED record into COMPLETED — both
transitions the claim says can never occur. -/
theorem status_write_conditionality_cex :
    ddbGet (processMessage ⟨"gas-inputs", "/jobs"⟩ (fun _ _ => false) true []
        [(("u1", "j1"), "COMPLETED")]
        ⟨some "j1", some "u1", none, some "in/f.vcf"⟩).store "u1" "j1" =
      some "FAILED" ∧
    runGet (run_update_job_status [("j1", { job_status := "FAILED" })] 7 "j1"
        "donma/j1/f.vcf.annotated" "donma/j1/f.vcf.log") "j1" =
      some "COMPLETED" := by
  constructor
  · rfl
  · rfl

/-- C1 (amended): only the dispatcher's PENDING→RUNNING claim is a
conditional update (a no-op when the record is not PENDING); the
dispatcher's FAILED writes and the reporter's COMPLETED finalize are
unconditional upserts that overwrite whatever status the record holds. -/
theorem status_write_conditionality_amended (t : DDB) (rt : RunDDB)
    (u j : String) (now : Nat) (rk lk : String)
    (hu : u ≠ "") (hne : ddbGet t u j ≠ some "PENDING") :
    update_job_status t j "RUNNING" (some "PENDING") (some u) = t ∧
    ddbGet (update_job_status t j "FAILED" none (some u)) u j = some "FAILED" ∧
    runGet (run_update_job_status rt now j rk lk) j = some "COMPLETED" := by
  refine ⟨?_, ?_, ?_⟩
  · simp [update_job_status, falsyStr, hu, hne]
  · simpa [update_job_status, falsyStr, hu] using ddbGet_ddbSet t u j "FAILED"
  · exact runGet_runSet rt j _

/-- Witness for the amended C1 at a concrete COMPLETED record. -/
theorem status_write_conditionality_wit :
    update_job_status [(("u1", "j1"), "COMPLETED")] "j1" "RUNNING"
        (some "PENDING") (some "u1") = [(("u1", "j1"), "COMPLETED")] ∧
    ddbGet (update_job_status [(("u1", "j1"), "COMPLETED")] "j1" "FAILED" none
        (some "u1")) "u1" "j1" = some "FAILED" ∧
    runGet (run_update_job_status [("j1", { job_status := "FAILED" })] 7 "j1"
        "rk" "lk") "j1" = some "COMPLETED" :=
  status_write_conditionality_amended _ _ _ _ _ _ _ (by decide) (by decide)

/-- C2 counterexample: redelivery after the job is RUNNING. The
conditional PENDING→RUNNING update is rejected, but the dispatcher
proceeds anyway: the trace of the redelivered notification contains the
download and the launch (and ends with the acknowledgment), refuting
idempotence under at-least-once delivery. -/
theorem redelivery_idempotence_cex :
    (processMessage ⟨"gas-inputs", "/jobs"⟩ (fun _ _ => true) true []
        [(("u1", "j1"), "RUNNING")]
        ⟨some "j1", some "u1", none, some "in/f.vcf"⟩).events =
      [.claim "u1" "j1", .download "gas-inputs" "in/f.vcf" "u1" "j1",
       .launch "/jobs/u1/j1/f.vcf" "j1" "u1", .ack] ∧
    Event.download "gas-inputs" "in/f.vcf" "u1" "j1" ∈
      (processMessage ⟨"gas-inputs", "/jobs"⟩ (fun _ _ => true) true []
        [(("u1", "j1"), "RUNNING")]
        ⟨some "j1", some "u1", none, some "in/f.vcf"⟩).events := by
  constructor
  · rfl
  · simp [processMessage, falsyStr, download_from_s3]

/-- C2 (amended): when the PENDING→RUNNING conditional update is
rejected, the dispatcher does not stop: the rejection is swallowed inside
`update_job_status`, the store write alone is skipped, and the loop goes
on to stage the input, launch the subprocess and acknowledge the
notification exactly as on first delivery. -/
theorem redelivery_idempotence_amended (cfg : Config)
    (s3ok : String → String → Bool) (fs : List String) (t : DDB)
    (j u k : String) (b : Option String)
    (hj : j ≠ "") (hu : u ≠ "") (hk : k ≠ "")
    (hne : ddbGet t u j ≠ some "PENDING")
    (hs3 : s3ok (b.getD cfg.s3_input_bucket) k = true) :
    (processMessage cfg s3ok true fs t ⟨some j, some u, b, some k⟩).store = t ∧
    (processMessage cfg s3ok true fs t ⟨some j, some u, b, some k⟩).events =
      [.claim u j, .download (b.getD cfg.s3_input_bucket) k u j,
       .launch (joinPath (joinPath (joinPath cfg.local_job_dir u) j)
         (lastSegment k)) j u, .ack] := by
  unfold processMessage
  simp [falsyStr, hj, hu, hk, download_from_s3, hs3, update_job_status, hne]

/-- Witness for the amended C2 at a concrete RUNNING record. -/
theorem redelivery_idempotence_wit :
    (processMessage ⟨"gas-inputs", "/jobs"⟩ (fun _ _ => true) true []
        [(("u1", "j1"), "RUNNING")]
        ⟨some "j1", some "u1", none, some "in/f.vcf"⟩).store =
      [(("u1", "j1"), "RUNNING")] ∧
    (processMessage ⟨"gas-inputs", "/jobs"⟩ (fun _ _ => true) true []
        [(("u1", "j1"), "RUNNING")]
        ⟨some "j1", some "u1", none, some "in/f.vcf"⟩).events =
      [.claim "u1" "j1", .download "gas-inputs" "in/f.vcf" "u1" "j1",
       .launch (joinPath (joinPath (joinPath "/jobs" "u1") "j1")
         (lastSegment "in/f.vcf")) "j1" "u1", .ack] :=
  redelivery_idempotence_amended _ _ _ _ _ _ _ _ (by decide) (by decide)
    (by decide) (by decide) (by decide)

/-- C3 counterexample: the webhook variant does not follow the order
claim → staging → launch → acknowledgment; on a concrete happy-path
notification its first operation is the download and the RUNNING status
write (itself unconditional, not a PENDING-checked claim) comes second. -/
theorem operation_order_cex :
    ((webhookAnnotate ⟨"gas-inputs", "/jobs"⟩ (fun _ _ => true) [] []
        ⟨some "j1", some "u1", none, some "in/f.vcf"⟩).events.get? 0 =
      some (.download "gas-inputs" "in/f.vcf" "u1" "j1")) ∧
    ((webhookAnnotate ⟨"gas-inputs", "/jobs"⟩ (fun _ _ => true) [] []
        ⟨some "j1", some "u1", none, some "in/f.vcf"⟩).events.get? 1 =
      some (.updateRunning "u1" "j1")) ∧
    (webhookAnnotate ⟨"gas-inputs", "/jobs"⟩ (fun _ _ => true) [] []
        ⟨some "j1", some "u1", none, some "in/f.vcf"⟩).httpStatus = 202 := by
  refine ⟨rfl, rfl, rfl⟩

/-- C3 (amended): in the polling dispatcher every per-notification trace
is strictly ordered claim → staging → launch → acknowledgment (with an
unconditional FAILED write only ever closing a trace); the webhook
variant does not share this order — it stages before its status write. -/
theorem operation_order_amended (cfg : Config) (s3ok : String → String → Bool)
    (launchOk : Bool) (fs : List String) (t : DDB) (m : Msg) :
    List.Chain' (fun a b => stageRank a < stageRank b)
      (processMessage cfg s3ok launchOk fs t m).events := by
  cases launchOk <;>
  · unfold processMessage
    split
    · simp
    · dsimp only
      rcases hdl : (download_from_s3 cfg.local_job_dir s3ok fs
          (m.s3_inputs_bucket.getD cfg.s3_input_bucket)
          (m.s3_key_input_file.getD "") (m.user_id.getD "")
          (m.job_id.getD "")).2 with _ | lp <;>
        simp [hdl, stageRank]

/-- C4 counterexample: on a concrete PENDING record whose staging fails,
the polling dispatcher sets FAILED but its trace contains no
acknowledgment — the `continue` skips `delete_message`, so the
notification stays in the channel, refuting the acknowledgment half of
the claim. -/
theorem staging_failure_cex :
    ddbGet (processMessage ⟨"gas-inputs", "/jobs"⟩ (fun _ _ => false) true []
        [(("u1", "j1"), "PENDING")]
        ⟨some "j1", some "u1", none, some "in/f.vcf"⟩).store "u1" "j1" =
      some "FAILED" ∧
    Event.ack ∉ (processMessage ⟨"gas-inputs", "/jobs"⟩ (fun _ _ => false) true []
        [(("u1", "j1"), "PENDING")]
        ⟨some "j1", some "u1", none, some "in/f.vcf"⟩).events := by
  constructor
  · rfl
  · decide

/-- C4 (amended): when staging fails, the polling dispatcher writes
FAILED via an unconditional update but does not acknowledge the
notification (it is left to be redelivered); the webhook variant's
download failure raises before any write, so it answers 500 leaving the
store untouched and also without acknowledging. -/
theorem staging_failure_amended (cfg : Config) (s3ok : String → String → Bool)
    (launchOk : Bool) (fs : List String) (t : DDB) (j u k : String)
    (hj : j ≠ "") (hu : u ≠ "") (hk : k ≠ "")
    (hs3 : s3ok cfg.s3_input_bucket k = false) :
    ddbGet (processMessage cfg s3ok launchOk fs t
        ⟨some j, some u, none, some k⟩).store u j = some "FAILED" ∧
    Event.ack ∉ (processMessage cfg s3ok launchOk fs t
        ⟨some j, some u, none, some k⟩).events ∧
    (webhookAnnotate cfg s3ok fs t ⟨some j, some u, none, some k⟩).store = t ∧
    Event.ack ∉ (webhookAnnotate cfg s3ok fs t
        ⟨some j, some u, none, some k⟩).events ∧
    (webhookAnnotate cfg s3ok fs t ⟨some j, some u, none, some k⟩).httpStatus =
      500 := by
  refine ⟨?_, ?_, ?_, ?_, ?_⟩
  · simp [processMessage, falsyStr, hj, hu, hk, download_from_s3, hs3]
    simpa [update_job_status, falsyStr, hu] using
      ddbGet_ddbSet (update_job_status t j "RUNNING" (some "PENDING") (some u))
        u j "FAILED"
  · simp [processMessage, falsyStr, hj, hu, hk, download_from_s3, hs3]
  · simp [webhookAnnotate, hs3]
  · simp [webhookAnnotate, hs3]
  · simp [webhookAnnotate, hs3]

/-- Witness for the amended C4 at a concrete PENDING record with a
failing download. -/
theorem staging_failure_wit :
    ddbGet (processMessage ⟨"gas-inputs", "/jobs"⟩ (fun _ _ => false) true []
        [(("u1", "j1"), "PENDING")]
        ⟨some "j1", some "u1", none, some "in/g.vcf"⟩).store "u1" "j1" =
      some "FAILED" ∧
    Event.ack ∉ (processMessage ⟨"gas-inputs", "/jobs"⟩ (fun _ _ => false) true []
        [(("u1", "j1"), "PENDING")]
        ⟨some "j1", some "u1", none, some "in/g.vcf"⟩).events ∧
    (webhookAnnotate ⟨"gas-inputs", "/jobs"⟩ (fun _ _ => false) []
        [(("u1", "j1"), "PENDING")]
        ⟨some "j1", some "u1", none, some "in/g.vcf"⟩).store =
      [(("u1", "j1"), "PENDING")] ∧
    Event.ack ∉ (webhookAnnotate ⟨"gas-inputs", "/jobs"⟩ (fun _ _ => false) []
        [(("u1", "j1"), "PENDING")]
        ⟨some "j1", some "u1", none, some "in/g.vcf"⟩).events ∧
    (webhookAnnotate ⟨"gas-inputs", "/jobs"⟩ (fun _ _ => false) []
        [(("u1", "j1"), "PENDING")]
        ⟨some "j1", some "u1", none, some "in/g.vcf"⟩).httpStatus = 500 :=
  staging_failure_amended _ _ _ _ _ _ _ _ (by decide) (by decide) (by decide) rfl

/-- C5 (code bug): when the analysis fails — `driver.run` raises, or no
intermediate output matches `input + ".*"` — `run.py` prints and exits 1
without touching the Job Store: the record keeps whatever status it had
(RUNNING), although the spec requires the Completion Reporter to set
FAILED on this path. -/
theorem analysis_failure_no_failed_write (argv : List String) (env : RunEnv)
    (t : RunDDB) (h3 : 3 ≤ argv.length)
    (hfail : env.driverOk = false ∨
      env.tempFiles (argv.getD 1 "" ++ ".*") = []) :
    runMain argv env t = ⟨1, [], t, []⟩ := by
  unfold runMain
  rw [if_neg (show ¬ argv.length < 3 by omega)]
  rcases hfail with h | h
  · simp [h]
  · have h' : env.tempFiles (argv[1]?.getD "" ++ ".*") = [] := by
      simpa [List.getD_eq_getElem?_getD] using h
    simp [h']

/-- Witness for C5: a concrete failing run (`driver.run` raises) leaves
the RUNNING record untouched and exits 1. -/
theorem analysis_failure_no_failed_write_wit :
    runMain ["run.py", "in.vcf", "j1"]
        ⟨false, fun _ => ["in.vcf.count"], fun _ _ => true, 5⟩
        [("j1", { job_status := "RUNNING" })] =
      ⟨1, [], [("j1", { job_status := "RUNNING" })], []⟩ :=
  analysis_failure_no_failed_write _ _ _ (by decide) (Or.inl rfl)

/-- C7 counterexample: for a concrete completed job run with user
identifier "alice", both artifacts are uploaded under keys
`donma/j1/...` — three slash-separated components with the fixed
constant `CNETID` first and no user component, refuting the claimed
`prefix/userId/jobId/filename` shape. -/
theorem result_key_shape_cex :
    (runMain ["run.py", "in.vcf", "j1", "alice"]
        ⟨true, fun _ => ["in.vcf.count"], fun _ _ => true, 5⟩ []).uploads.map
        (fun x => x.2.2) =
      ["donma/j1/in.vcf.annotated", "donma/j1/in.vcf.log"] ∧
    splitSlash "donma/j1/in.vcf.annotated" = ["donma", "j1", "in.vcf.annotated"] ∧
    "alice" ∉ splitSlash "donma/j1/in.vcf.annotated" := by
  refine ⟨rfl, rfl, by decide⟩

/-- C7 (amended): for every completed job the Completion Reporter uploads
the result and log artifacts under keys `CNETID/jobId/filename` where
`CNETID` is the hardcoded constant "donma" — the key is derived from the
job identifier only, never from the user identifier. -/
theorem result_key_shape_amended (argv : List String) (env : RunEnv)
    (t : RunDDB) (h3 : 3 ≤ argv.length) (hd : env.driverOk = true)
    (htmp : env.tempFiles (argv.getD 1 "" ++ ".*") ≠ [])
    (hup : ∀ b k, env.uploadOk b k = true) :
    (runMain argv env t).uploads =
      [(argv.getD 1 "" ++ ".annotated", RUN_S3_RESULTS_BUCKET,
        CNETID ++ "/" ++ argv.getD 2 "" ++ "/" ++
          lastSegment (argv.getD 1 "" ++ ".annotated")),
       (argv.getD 1 "" ++ ".log", RUN_S3_RESULTS_BUCKET,
        CNETID ++ "/" ++ argv.getD 2 "" ++ "/" ++
          lastSegment (argv.getD 1 "" ++ ".log"))] := by
  unfold runMain
  rw [if_neg (show ¬ argv.length < 3 by omega)]
  have htmp' : ¬ env.tempFiles (argv[1]?.getD "" ++ ".*") = [] := by
    simpa [List.getD_eq_getElem?_getD] using htmp
  simp [hd, htmp', hup]

/-- Witness for the amended C7 at a concrete successful run. -/
theorem result_key_shape_wit :
    (runMain ["run.py", "in.vcf", "j1", "alice"]
        ⟨true, fun _ => ["in.vcf.count"], fun _ _ => true, 9⟩ []).uploads =
      [("in.vcf" ++ ".annotated", RUN_S3_RESULTS_BUCKET,
        CNETID ++ "/" ++ "j1" ++ "/" ++ lastSegment ("in.vcf" ++ ".annotated")),
       ("in.vcf" ++ ".log", RUN_S3_RESULTS_BUCKET,
        CNETID ++ "/" ++ "j1" ++ "/" ++ lastSegment ("in.vcf" ++ ".log"))] :=
  result_key_shape_amended _ _ _ (by decide) rfl (by decide) (fun _ _ => rfl)

end GasCopy
